import Mathlib

/-!
Verification development for the pyglaz repository: a ctypes wrapper
(`pyglaz/wrapper.py`) around the proprietary GlazLib spectrometer library,
with call-signature declarations in `pyglaz/_bindings.py` and config-file
lookup in `pyglaz/utils.py`.

The native library is opaque, so it is modelled as an environment
(`NativeEnv`) of response functions: for every native entry point the
environment fixes the integer status it returns and the data it writes into
the caller-supplied out-parameters.  Every wrapper method is translated into
a pure Lean function over that environment which returns the Python-level
result (`Except PyExc _` — an `error` is a raised exception), the exact
sequence of native calls the method performs (`List NativeCall`, recording
the capacity of every data buffer passed across the foreign boundary), and
the resulting session state (the `_initialized` flag of `GlazLib`).

Numeric conventions: C `int` status codes and scalar arguments are `Int`;
`double` sample values are carried as opaque `Int` scalars (the wrapper
performs no arithmetic on them, it only copies them); `uint16` samples are
`Nat` reduced mod 2^16 by the `c_uint16` buffer cells they are stored in.
-/

namespace Pyglaz

/-! ### Error codes and constants from `pyglaz/_bindings.py` -/

def ERROR_NONE : Int := 0
def ERROR_NOT_INITIALISED : Int := 1
def ERROR_INVALID_TRIGGER_MODE : Int := 8

def GLAZ_LINESCAN_II_V2_SINGLE_DEVICE_TYPE : Int := 6

/-! ### Python-level values -/

/-- A Python exception raised by the wrapper layer. -/
inductive PyExc where
  | runtimeError (msg : String)
  | fileNotFoundError (msg : String)
deriving DecidableEq, Repr

/-- The Python value a ctypes native call evaluates to when used as a status:
either an actual C `int` (restype `c_int`) or Python `None` (restype `None`,
as `_bindings.py` declares for `setUSBParameters`). -/
inductive PyStatus where
  | int (n : Int)
  | pyNone
deriving DecidableEq, Repr

/-- Python's `status != code` comparison: `None != code` is `True`. -/
def PyStatus.neInt : PyStatus → Int → Bool
  | .int n, m => decide (n ≠ m)
  | .pyNone, _ => true

/-- The `GlazLib` object state: the `self._initialized` flag. -/
structure SessionState where
  initialised : Bool
deriving DecidableEq, Repr

/-! ### Trace of native calls

Each constructor is one native entry point; data-carrying calls record the
capacity of the buffer passed (for the two-phase getters, `none` is the
`NULL` data pointer of the size-query phase, `some cap` a ctypes array of
`cap` elements; for the complex getters both buffers have the recorded
capacity). -/

inductive NativeCall where
  | getLastErrorMessage (bufSize : Nat)
  | initialiseSession (path : String)
  | initialiseSingleDeviceSession (deviceType : Int) (useDefaults allowDemo : Bool)
  | closeSession
  | setUSBParameters (timeout bulkSize queueSize : Int)
  | setTestMode (mode : Int)
  | setWavelengths (minW maxW : Int)
  | setHardwareAveraging (averaging : Int)
  | setResolution (resolution : Int)
  | setScanCount (count : Int)
  | setScanClockSpeed (speed : Int)
  | setADCGain (gain : Int)
  | setTriggerDelay (delay : Int)
  | setTriggerMode (mode : Int)
  | setInternalTriggerFrequency (freq : Int)
  | setIntegrationMode (mode : Int)
  | setIntegrationTime (t : Int)
  | setSyncOutMode (mode : Int)
  | setSyncOutPolarity (polarity : Int)
  | setAuxOutMode (mode : Int)
  | setAuxOutPolarity (polarity : Int)
  | setOutCycleCount (count : Int)
  | setTimeout (timeout : Int)
  | captureBackground (count : Int)
  | runMeasurement
  | startMeasurement
  | isMeasurementDone
  | getTimeStamp (index channel : Int)
  | getResult (index : Int) (bufCap : Option Nat)
  | getComplexResult (index : Int) (bufCap : Option Nat)
  | getScan (index scanIndex : Int) (bufCap : Option Nat)
  | getComplexScan (index scanIndex : Int) (bufCap : Option Nat)
  | getAllScansSizes (index : Int)
  | getAllScans (index : Int) (bufCap : Nat)
  | writeAllScansToFile (index : Int) (filename : String) (includeHeader : Bool)
  | getPDValues (index channel : Int) (bufCap : Option Nat)
  | getPDReference (index channel : Int)
  | getAUXStates (index : Int) (bufCap : Option Nat)
  | getAUXCycleCounts (index channel : Int) (bufCap : Option Nat)
  | runUSBCommsTest
deriving DecidableEq, Repr

/-! ### The opaque native library -/

/-- Behaviour of the opaque native library: for every entry point, the status
it returns (as a function of the arguments) and the values it writes into
out-parameters.  Two-phase getters have a status for the size-query call, the
size it writes, a status for the data-fetch call, and the data it writes. -/
structure NativeEnv where
  lastErrorMessage : String := ""
  initialiseSessionStatus : String → Int := fun _ => 0
  initialiseSingleDeviceSessionStatus : Int → Bool → Bool → Int := fun _ _ _ => 0
  closeSessionStatus : Int := 0
  /-- Whether `closeSession` raises a (non-`RuntimeError`) Python exception instead
  of returning a status. -/
  closeSessionThrows : Bool := false
  setTestModeStatus : Int → Int := fun _ => 0
  setWavelengthsStatus : Int → Int → Int := fun _ _ => 0
  setHardwareAveragingStatus : Int → Int := fun _ => 0
  setResolutionStatus : Int → Int := fun _ => 0
  setScanCountStatus : Int → Int := fun _ => 0
  setScanClockSpeedStatus : Int → Int := fun _ => 0
  setADCGainStatus : Int → Int := fun _ => 0
  setTriggerDelayStatus : Int → Int := fun _ => 0
  setTriggerModeStatus : Int → Int := fun _ => 0
  setInternalTriggerFrequencyStatus : Int → Int := fun _ => 0
  setIntegrationModeStatus : Int → Int := fun _ => 0
  setIntegrationTimeStatus : Int → Int := fun _ => 0
  setSyncOutModeStatus : Int → Int := fun _ => 0
  setSyncOutPolarityStatus : Int → Int := fun _ => 0
  setAuxOutModeStatus : Int → Int := fun _ => 0
  setAuxOutPolarityStatus : Int → Int := fun _ => 0
  setOutCycleCountStatus : Int → Int := fun _ => 0
  setTimeoutStatus : Int → Int := fun _ => 0
  captureBackgroundStatus : Int → Int := fun _ => 0
  runMeasurementStatus : Int := 0
  startMeasurementStatus : Int := 0
  isMeasurementDoneStatus : Int := 0
  isMeasurementDoneValue : Bool := false
  getTimeStampStatus : Int → Int → Int := fun _ _ => 0
  getTimeStampValue : Int → Int → Int := fun _ _ => 0
  getResultQueryStatus : Int → Int := fun _ => 0
  getResultSize : Int → Int := fun _ => 0
  getResultFetchStatus : Int → Int := fun _ => 0
  getResultValue : Int → Nat → Int := fun _ _ => 0
  getComplexResultQueryStatus : Int → Int := fun _ => 0
  getComplexResultSize : Int → Int := fun _ => 0
  getComplexResultFetchStatus : Int → Int := fun _ => 0
  getComplexResultRe : Int → Nat → Int := fun _ _ => 0
  getComplexResultIm : Int → Nat → Int := fun _ _ => 0
  getScanQueryStatus : Int → Int → Int := fun _ _ => 0
  getScanSize : Int → Int → Int := fun _ _ => 0
  getScanFetchStatus : Int → Int → Int := fun _ _ => 0
  getScanValue : Int → Int → Nat → Int := fun _ _ _ => 0
  getComplexScanQueryStatus : Int → Int → Int := fun _ _ => 0
  getComplexScanSize : Int → Int → Int := fun _ _ => 0
  getComplexScanFetchStatus : Int → Int → Int := fun _ _ => 0
  getComplexScanRe : Int → Int → Nat → Int := fun _ _ _ => 0
  getComplexScanIm : Int → Int → Nat → Int := fun _ _ _ => 0
  getAllScansSizesStatus : Int → Int := fun _ => 0
  getAllScansNumScans : Int → Int := fun _ => 0
  getAllScansPixels : Int → Int := fun _ => 0
  getAllScansStatus : Int → Int := fun _ => 0
  /-- Raw sample the native layer stores into cell `i` of the `c_uint16`
  buffer; reading the cell back yields the value mod 2^16. -/
  getAllScansValue : Int → Nat → Nat := fun _ _ => 0
  writeAllScansToFileStatus : Int → String → Bool → Int := fun _ _ _ => 0
  getPDValuesQueryStatus : Int → Int → Int := fun _ _ => 0
  getPDValuesSize : Int → Int → Int := fun _ _ => 0
  getPDValuesFetchStatus : Int → Int → Int := fun _ _ => 0
  getPDValuesValue : Int → Int → Nat → Int := fun _ _ _ => 0
  getPDReferenceStatus : Int → Int → Int := fun _ _ => 0
  getPDReferenceValue : Int → Int → Int := fun _ _ => 0
  getAUXStatesQueryStatus : Int → Int := fun _ => 0
  getAUXStatesSize : Int → Int := fun _ => 0
  getAUXStatesFetchStatus : Int → Int := fun _ => 0
  getAUXStatesValue : Int → Nat → Bool := fun _ _ => false
  getAUXCycleCountsQueryStatus : Int → Int → Int := fun _ _ => 0
  getAUXCycleCountsSize : Int → Int → Int := fun _ _ => 0
  getAUXCycleCountsFetchStatus : Int → Int → Int := fun _ _ => 0
  getAUXCycleCountsValue : Int → Int → Nat → Int := fun _ _ _ => 0
  runUSBCommsTestStatus : Int := 0

/-! ### Wrapper methods (`pyglaz/wrapper.py`) -/

/-- Wrapper method `GlazLib.get_last_error_message`: fixed `buffer_size = 1024`, passes the
buffer to `getLastErrorMessage` and decodes it. -/
def get_last_error_message (env : NativeEnv) : String × List NativeCall :=
  (env.lastErrorMessage, [NativeCall.getLastErrorMessage 1024])

/-- The failing-status tail shared by every wrapper method: fetch the native
message via `get_last_error_message` and build the `RuntimeError` payload
`label ++ message`. -/
def raiseWithLastError (label : String) (env : NativeEnv) :
    PyExc × List NativeCall :=
  let (msg, t) := get_last_error_message env
  (PyExc.runtimeError (label ++ msg), t)

/-- The `status = native(...); if status != lib.ERROR_NONE: raise ...`
pattern shared by every configuration setter. -/
def checkStatus (label : String) (env : NativeEnv) (status : PyStatus) :
    Except PyExc Unit × List NativeCall :=
  if status.neInt ERROR_NONE then
    let (e, t) := raiseWithLastError label env
    (Except.error e, t)
  else (Except.ok (), [])

/-- Wrapper method `GlazLib.set_usb_parameters`.  `_bindings.py` declares
`setUSBParameters.restype = None`, so the call evaluates to Python `None`. -/
def set_usb_parameters (env : NativeEnv) (s : SessionState)
    (timeout bulk_size queue_size : Int) :
    Except PyExc Unit × List NativeCall × SessionState :=
  let status := PyStatus.pyNone
  let (r, t) := checkStatus "Failed to set USB parameters: " env status
  (r, NativeCall.setUSBParameters timeout bulk_size queue_size :: t, s)

/-- Wrapper method `GlazLib.set_test_mode`. -/
def set_test_mode (env : NativeEnv) (s : SessionState) (mode : Int) :
    Except PyExc Unit × List NativeCall × SessionState :=
  let status := PyStatus.int (env.setTestModeStatus mode)
  let (r, t) := checkStatus "Failed to set test mode: " env status
  (r, NativeCall.setTestMode mode :: t, s)

/-- Wrapper method `GlazLib.set_wavelengths`. -/
def set_wavelengths (env : NativeEnv) (s : SessionState)
    (min_wavelength max_wavelength : Int) :
    Except PyExc Unit × List NativeCall × SessionState :=
  let status := PyStatus.int (env.setWavelengthsStatus min_wavelength max_wavelength)
  let (r, t) := checkStatus "Failed to set wavelength range: " env status
  (r, NativeCall.setWavelengths min_wavelength max_wavelength :: t, s)

/-- Wrapper method `GlazLib.set_hardware_averaging`. -/
def set_hardware_averaging (env : NativeEnv) (s : SessionState) (averaging : Int) :
    Except PyExc Unit × List NativeCall × SessionState :=
  let status := PyStatus.int (env.setHardwareAveragingStatus averaging)
  let (r, t) := checkStatus "Failed to set hardware averaging: " env status
  (r, NativeCall.setHardwareAveraging averaging :: t, s)

/-- Wrapper method `GlazLib.set_resolution`. -/
def set_resolution (env : NativeEnv) (s : SessionState) (resolution : Int) :
    Except PyExc Unit × List NativeCall × SessionState :=
  let status := PyStatus.int (env.setResolutionStatus resolution)
  let (r, t) := checkStatus "Failed to set resolution: " env status
  (r, NativeCall.setResolution resolution :: t, s)

/-- Wrapper method `GlazLib.set_scan_count`. -/
def set_scan_count (env : NativeEnv) (s : SessionState) (count : Int) :
    Except PyExc Unit × List NativeCall × SessionState :=
  let status := PyStatus.int (env.setScanCountStatus count)
  let (r, t) := checkStatus "Failed to set scan count: " env status
  (r, NativeCall.setScanCount count :: t, s)

/-- Wrapper method `GlazLib.set_scan_clock_speed`. -/
def set_scan_clock_speed (env : NativeEnv) (s : SessionState) (speed : Int) :
    Except PyExc Unit × List NativeCall × SessionState :=
  let status := PyStatus.int (env.setScanClockSpeedStatus speed)
  let (r, t) := checkStatus "Failed to set scan clock speed: " env status
  (r, NativeCall.setScanClockSpeed speed :: t, s)

/-- Wrapper method `GlazLib.set_adc_gain`. -/
def set_adc_gain (env : NativeEnv) (s : SessionState) (gain : Int) :
    Except PyExc Unit × List NativeCall × SessionState :=
  let status := PyStatus.int (env.setADCGainStatus gain)
  let (r, t) := checkStatus "Failed to set ADC gain: " env status
  (r, NativeCall.setADCGain gain :: t, s)

/-- Wrapper method `GlazLib.set_trigger_delay`. -/
def set_trigger_delay (env : NativeEnv) (s : SessionState) (delay : Int) :
    Except PyExc Unit × List NativeCall × SessionState :=
  let status := PyStatus.int (env.setTriggerDelayStatus delay)
  let (r, t) := checkStatus "Failed to set trigger delay: " env status
  (r, NativeCall.setTriggerDelay delay :: t, s)

/-- Wrapper method `GlazLib.set_trigger_mode`. -/
def set_trigger_mode (env : NativeEnv) (s : SessionState) (mode : Int) :
    Except PyExc Unit × List NativeCall × SessionState :=
  let status := PyStatus.int (env.setTriggerModeStatus mode)
  let (r, t) := checkStatus "Failed to set trigger mode: " env status
  (r, NativeCall.setTriggerMode mode :: t, s)

/-- Wrapper method `GlazLib.set_internal_trigger_frequency`. -/
def set_internal_trigger_frequency (env : NativeEnv) (s : SessionState) (frequency : Int) :
    Except PyExc Unit × List NativeCall × SessionState :=
  let status := PyStatus.int (env.setInternalTriggerFrequencyStatus frequency)
  let (r, t) := checkStatus "Failed to set internal trigger frequency: " env status
  (r, NativeCall.setInternalTriggerFrequency frequency :: t, s)

/-- Wrapper method `GlazLib.set_integration_mode`. -/
def set_integration_mode (env : NativeEnv) (s : SessionState) (mode : Int) :
    Except PyExc Unit × List NativeCall × SessionState :=
  let status := PyStatus.int (env.setIntegrationModeStatus mode)
  let (r, t) := checkStatus "Failed to set integration mode: " env status
  (r, NativeCall.setIntegrationMode mode :: t, s)

/-- Wrapper method `GlazLib.set_integration_time`. -/
def set_integration_time (env : NativeEnv) (s : SessionState) (time : Int) :
    Except PyExc Unit × List NativeCall × SessionState :=
  let status := PyStatus.int (env.setIntegrationTimeStatus time)
  let (r, t) := checkStatus "Failed to set integration time: " env status
  (r, NativeCall.setIntegrationTime time :: t, s)

/-- Wrapper method `GlazLib.set_sync_out_mode`. -/
def set_sync_out_mode (env : NativeEnv) (s : SessionState) (mode : Int) :
    Except PyExc Unit × List NativeCall × SessionState :=
  let status := PyStatus.int (env.setSyncOutModeStatus mode)
  let (r, t) := checkStatus "Failed to set sync output mode: " env status
  (r, NativeCall.setSyncOutMode mode :: t, s)

/-- Wrapper method `GlazLib.set_sync_out_polarity`. -/
def set_sync_out_polarity (env : NativeEnv) (s : SessionState) (polarity : Int) :
    Except PyExc Unit × List NativeCall × SessionState :=
  let status := PyStatus.int (env.setSyncOutPolarityStatus polarity)
  let (r, t) := checkStatus "Failed to set sync output polarity: " env status
  (r, NativeCall.setSyncOutPolarity polarity :: t, s)

/-- Wrapper method `GlazLib.set_aux_out_mode`. -/
def set_aux_out_mode (env : NativeEnv) (s : SessionState) (mode : Int) :
    Except PyExc Unit × List NativeCall × SessionState :=
  let status := PyStatus.int (env.setAuxOutModeStatus mode)
  let (r, t) := checkStatus "Failed to set auxiliary output mode: " env status
  (r, NativeCall.setAuxOutMode mode :: t, s)

/-- Wrapper method `GlazLib.set_aux_out_polarity`. -/
def set_aux_out_polarity (env : NativeEnv) (s : SessionState) (polarity : Int) :
    Except PyExc Unit × List NativeCall × SessionState :=
  let status := PyStatus.int (env.setAuxOutPolarityStatus polarity)
  let (r, t) := checkStatus "Failed to set auxiliary output polarity: " env status
  (r, NativeCall.setAuxOutPolarity polarity :: t, s)

/-- Wrapper method `GlazLib.set_out_cycle_count`. -/
def set_out_cycle_count (env : NativeEnv) (s : SessionState) (count : Int) :
    Except PyExc Unit × List NativeCall × SessionState :=
  let status := PyStatus.int (env.setOutCycleCountStatus count)
  let (r, t) := checkStatus "Failed to set output cycle count: " env status
  (r, NativeCall.setOutCycleCount count :: t, s)

/-- Wrapper method `GlazLib.set_timeout`. -/
def set_timeout (env : NativeEnv) (s : SessionState) (timeout : Int) :
    Except PyExc Unit × List NativeCall × SessionState :=
  let status := PyStatus.int (env.setTimeoutStatus timeout)
  let (r, t) := checkStatus "Failed to set timeout: " env status
  (r, NativeCall.setTimeout timeout :: t, s)

/-- Wrapper method `GlazLib.capture_background`. -/
def capture_background (env : NativeEnv) (s : SessionState) (count : Int) :
    Except PyExc Unit × List NativeCall × SessionState :=
  let status := PyStatus.int (env.captureBackgroundStatus count)
  let (r, t) := checkStatus "Failed to capture background: " env status
  (r, NativeCall.captureBackground count :: t, s)

/-- Wrapper method `GlazLib.run_measurement`. -/
def run_measurement (env : NativeEnv) (s : SessionState) :
    Except PyExc Unit × List NativeCall × SessionState :=
  let status := PyStatus.int env.runMeasurementStatus
  let (r, t) := checkStatus "Failed to run measurement: " env status
  (r, NativeCall.runMeasurement :: t, s)

/-- Wrapper method `GlazLib.start_measurement`. -/
def start_measurement (env : NativeEnv) (s : SessionState) :
    Except PyExc Unit × List NativeCall × SessionState :=
  let status := PyStatus.int env.startMeasurementStatus
  let (r, t) := checkStatus "Failed to start measurement: " env status
  (r, NativeCall.startMeasurement :: t, s)

/-- Wrapper method `GlazLib.run_usb_comms_test`. -/
def run_usb_comms_test (env : NativeEnv) (s : SessionState) :
    Except PyExc Unit × List NativeCall × SessionState :=
  let status := PyStatus.int env.runUSBCommsTestStatus
  let (r, t) := checkStatus "USB communications test failed: " env status
  (r, NativeCall.runUSBCommsTest :: t, s)

/-- Wrapper method `GlazLib.write_all_scans_to_file`. -/
def write_all_scans_to_file (env : NativeEnv) (s : SessionState)
    (index : Int) (filename : String) (include_header : Bool) :
    Except PyExc Unit × List NativeCall × SessionState :=
  let status := PyStatus.int (env.writeAllScansToFileStatus index filename include_header)
  let (r, t) := checkStatus "Failed to write all scans to file: " env status
  (r, NativeCall.writeAllScansToFile index filename include_header :: t, s)

/-- Wrapper method `GlazLib.is_measurement_done`. -/
def is_measurement_done (env : NativeEnv) (s : SessionState) :
    Except PyExc Bool × List NativeCall × SessionState :=
  let st := env.isMeasurementDoneStatus
  if st ≠ ERROR_NONE then
    let (e, t) := raiseWithLastError "Failed to check if measurement is done: " env
    (Except.error e, NativeCall.isMeasurementDone :: t, s)
  else
    (Except.ok env.isMeasurementDoneValue, [NativeCall.isMeasurementDone], s)

/-- Wrapper method `GlazLib.get_time_stamp`. -/
def get_time_stamp (env : NativeEnv) (s : SessionState) (index channel : Int) :
    Except PyExc Int × List NativeCall × SessionState :=
  let st := env.getTimeStampStatus index channel
  if st ≠ ERROR_NONE then
    let (e, t) := raiseWithLastError "Failed to get time stamp: " env
    (Except.error e, NativeCall.getTimeStamp index channel :: t, s)
  else
    (Except.ok (env.getTimeStampValue index channel), [NativeCall.getTimeStamp index channel], s)

/-- Wrapper method `GlazLib.get_pd_reference`. -/
def get_pd_reference (env : NativeEnv) (s : SessionState) (index channel : Int) :
    Except PyExc Int × List NativeCall × SessionState :=
  let st := env.getPDReferenceStatus index channel
  if st ≠ ERROR_NONE then
    let (e, t) := raiseWithLastError "Failed to get photodiode reference: " env
    (Except.error e, NativeCall.getPDReference index channel :: t, s)
  else
    (Except.ok (env.getPDReferenceValue index channel), [NativeCall.getPDReference index channel], s)

/-! ### Two-phase variable-length getters

Each getter first calls the native function with a `NULL` data pointer
(the size query), raises on a failing status, returns an empty container if
the written count is `<= 0`, and otherwise allocates a ctypes array of
exactly `size.value` elements and calls the same native function again. -/

/-- Wrapper method `GlazLib.get_result`: returns `(data, size)`. -/
def get_result (env : NativeEnv) (index : Int) :
    Except PyExc (List Int × Int) × List NativeCall :=
  let st1 := env.getResultQueryStatus index
  if st1 ≠ ERROR_NONE then
    let (e, t) := raiseWithLastError "Failed to get result size: " env
    (Except.error e, NativeCall.getResult index none :: t)
  else
    let n := env.getResultSize index
    if n ≤ 0 then
      (Except.ok ([], 0), [NativeCall.getResult index none])
    else
      let cap := n.toNat
      let st2 := env.getResultFetchStatus index
      if st2 ≠ ERROR_NONE then
        let (e, t) := raiseWithLastError "Failed to get result data: " env
        (Except.error e,
         NativeCall.getResult index none :: NativeCall.getResult index (some cap) :: t)
      else
        (Except.ok ((List.range cap).map (env.getResultValue index), n),
         [NativeCall.getResult index none, NativeCall.getResult index (some cap)])

/-- Wrapper method `GlazLib.get_complex_result`: returns `(real_data, imag_data, size)`. -/
def get_complex_result (env : NativeEnv) (index : Int) :
    Except PyExc (List Int × List Int × Int) × List NativeCall :=
  let st1 := env.getComplexResultQueryStatus index
  if st1 ≠ ERROR_NONE then
    let (e, t) := raiseWithLastError "Failed to get complex result size: " env
    (Except.error e, NativeCall.getComplexResult index none :: t)
  else
    let n := env.getComplexResultSize index
    if n ≤ 0 then
      (Except.ok ([], [], 0), [NativeCall.getComplexResult index none])
    else
      let cap := n.toNat
      let st2 := env.getComplexResultFetchStatus index
      if st2 ≠ ERROR_NONE then
        let (e, t) := raiseWithLastError "Failed to get complex result data: " env
        (Except.error e,
         NativeCall.getComplexResult index none :: NativeCall.getComplexResult index (some cap) :: t)
      else
        (Except.ok ((List.range cap).map (env.getComplexResultRe index),
                    (List.range cap).map (env.getComplexResultIm index), n),
         [NativeCall.getComplexResult index none, NativeCall.getComplexResult index (some cap)])

/-- Wrapper method `GlazLib.get_scan`: returns `(data, size)`. -/
def get_scan (env : NativeEnv) (index scan_index : Int) :
    Except PyExc (List Int × Int) × List NativeCall :=
  let st1 := env.getScanQueryStatus index scan_index
  if st1 ≠ ERROR_NONE then
    let (e, t) := raiseWithLastError "Failed to get scan size: " env
    (Except.error e, NativeCall.getScan index scan_index none :: t)
  else
    let n := env.getScanSize index scan_index
    if n ≤ 0 then
      (Except.ok ([], 0), [NativeCall.getScan index scan_index none])
    else
      let cap := n.toNat
      let st2 := env.getScanFetchStatus index scan_index
      if st2 ≠ ERROR_NONE then
        let (e, t) := raiseWithLastError "Failed to get scan data: " env
        (Except.error e,
         NativeCall.getScan index scan_index none ::
           NativeCall.getScan index scan_index (some cap) :: t)
      else
        (Except.ok ((List.range cap).map (env.getScanValue index scan_index), n),
         [NativeCall.getScan index scan_index none,
          NativeCall.getScan index scan_index (some cap)])

/-- Wrapper method `GlazLib.get_complex_scan`: returns `(real_data, imag_data, size)`. -/
def get_complex_scan (env : NativeEnv) (index scan_index : Int) :
    Except PyExc (List Int × List Int × Int) × List NativeCall :=
  let st1 := env.getComplexScanQueryStatus index scan_index
  if st1 ≠ ERROR_NONE then
    let (e, t) := raiseWithLastError "Failed to get complex scan size: " env
    (Except.error e, NativeCall.getComplexScan index scan_index none :: t)
  else
    let n := env.getComplexScanSize index scan_index
    if n ≤ 0 then
      (Except.ok ([], [], 0), [NativeCall.getComplexScan index scan_index none])
    else
      let cap := n.toNat
      let st2 := env.getComplexScanFetchStatus index scan_index
      if st2 ≠ ERROR_NONE then
        let (e, t) := raiseWithLastError "Failed to get complex scan data: " env
        (Except.error e,
         NativeCall.getComplexScan index scan_index none ::
           NativeCall.getComplexScan index scan_index (some cap) :: t)
      else
        (Except.ok ((List.range cap).map (env.getComplexScanRe index scan_index),
                    (List.range cap).map (env.getComplexScanIm index scan_index), n),
         [NativeCall.getComplexScan index scan_index none,
          NativeCall.getComplexScan index scan_index (some cap)])

/-- Wrapper method `GlazLib.get_pd_values`: returns `(values, size)`. -/
def get_pd_values (env : NativeEnv) (index channel : Int) :
    Except PyExc (List Int × Int) × List NativeCall :=
  let st1 := env.getPDValuesQueryStatus index channel
  if st1 ≠ ERROR_NONE then
    let (e, t) := raiseWithLastError "Failed to get photodiode values size: " env
    (Except.error e, NativeCall.getPDValues index channel none :: t)
  else
    let n := env.getPDValuesSize index channel
    if n ≤ 0 then
      (Except.ok ([], 0), [NativeCall.getPDValues index channel none])
    else
      let cap := n.toNat
      let st2 := env.getPDValuesFetchStatus index channel
      if st2 ≠ ERROR_NONE then
        let (e, t) := raiseWithLastError "Failed to get photodiode values: " env
        (Except.error e,
         NativeCall.getPDValues index channel none ::
           NativeCall.getPDValues index channel (some cap) :: t)
      else
        (Except.ok ((List.range cap).map (env.getPDValuesValue index channel), n),
         [NativeCall.getPDValues index channel none,
          NativeCall.getPDValues index channel (some cap)])

/-- Wrapper method `GlazLib.get_aux_states`: returns `(states, size)`. -/
def get_aux_states (env : NativeEnv) (index : Int) :
    Except PyExc (List Bool × Int) × List NativeCall :=
  let st1 := env.getAUXStatesQueryStatus index
  if st1 ≠ ERROR_NONE then
    let (e, t) := raiseWithLastError "Failed to get auxiliary states size: " env
    (Except.error e, NativeCall.getAUXStates index none :: t)
  else
    let n := env.getAUXStatesSize index
    if n ≤ 0 then
      (Except.ok ([], 0), [NativeCall.getAUXStates index none])
    else
      let cap := n.toNat
      let st2 := env.getAUXStatesFetchStatus index
      if st2 ≠ ERROR_NONE then
        let (e, t) := raiseWithLastError "Failed to get auxiliary states: " env
        (Except.error e,
         NativeCall.getAUXStates index none :: NativeCall.getAUXStates index (some cap) :: t)
      else
        (Except.ok ((List.range cap).map (env.getAUXStatesValue index), n),
         [NativeCall.getAUXStates index none, NativeCall.getAUXStates index (some cap)])

/-- Wrapper method `GlazLib.get_aux_cycle_counts`: returns `(counts, size)`. -/
def get_aux_cycle_counts (env : NativeEnv) (index channel : Int) :
    Except PyExc (List Int × Int) × List NativeCall :=
  let st1 := env.getAUXCycleCountsQueryStatus index channel
  if st1 ≠ ERROR_NONE then
    let (e, t) := raiseWithLastError "Failed to get auxiliary cycle counts size: " env
    (Except.error e, NativeCall.getAUXCycleCounts index channel none :: t)
  else
    let n := env.getAUXCycleCountsSize index channel
    if n ≤ 0 then
      (Except.ok ([], 0), [NativeCall.getAUXCycleCounts index channel none])
    else
      let cap := n.toNat
      let st2 := env.getAUXCycleCountsFetchStatus index channel
      if st2 ≠ ERROR_NONE then
        let (e, t) := raiseWithLastError "Failed to get auxiliary cycle counts: " env
        (Except.error e,
         NativeCall.getAUXCycleCounts index channel none ::
           NativeCall.getAUXCycleCounts index channel (some cap) :: t)
      else
        (Except.ok ((List.range cap).map (env.getAUXCycleCountsValue index channel), n),
         [NativeCall.getAUXCycleCounts index channel none,
          NativeCall.getAUXCycleCounts index channel (some cap)])

/-- Wrapper method `GlazLib.get_all_scans_sizes`: returns `(num_scans, pixels_per_scan)`. -/
def get_all_scans_sizes (env : NativeEnv) (index : Int) :
    Except PyExc (Int × Int) × List NativeCall :=
  let st := env.getAllScansSizesStatus index
  if st ≠ ERROR_NONE then
    let (e, t) := raiseWithLastError "Failed to get all scans sizes: " env
    (Except.error e, NativeCall.getAllScansSizes index :: t)
  else
    (Except.ok (env.getAllScansNumScans index, env.getAllScansPixels index),
     [NativeCall.getAllScansSizes index])

/-- Wrapper method `GlazLib.get_all_scans`: queries `(num_scans, pixels_per_scan)` via
`get_all_scans_sizes`, allocates a `c_uint16` buffer of exactly
`num_scans * pixels_per_scan` cells, fetches, and reshapes the flat buffer
row-major to shape `(num_scans, pixels_per_scan)` with dtype `uint16`. -/
def get_all_scans (env : NativeEnv) (index : Int) :
    Except PyExc (List (List Nat)) × List NativeCall :=
  match get_all_scans_sizes env index with
  | (Except.error e, t0) => (Except.error e, t0)
  | (Except.ok (num_scans, pixels_per_scan), t0) =>
    if num_scans ≤ 0 ∨ pixels_per_scan ≤ 0 then
      (Except.ok [], t0)
    else
      let rows := num_scans.toNat
      let cols := pixels_per_scan.toNat
      let total := rows * cols
      let st := env.getAllScansStatus index
      if st ≠ ERROR_NONE then
        let (e, t) := raiseWithLastError "Failed to get all scans: " env
        (Except.error e, t0 ++ NativeCall.getAllScans index total :: t)
      else
        (Except.ok ((List.range rows).map (fun r =>
           (List.range cols).map (fun c => env.getAllScansValue index (r * cols + c) % 65536))),
         t0 ++ [NativeCall.getAllScans index total])

/-! ### Session lifecycle (`GlazLib.__init__`, `close`, `__del__`) -/

/-- Model of `os.path.join` for the POSIX paths the search uses. -/
def path_join (directory name : String) : String := directory ++ "/" ++ name

/-- Python `config_name.lower().endswith(".xml")`, modelled on the string's
character data with per-character lowering. -/
def lowerEndsWithXml (s : String) : Bool :=
  List.isSuffixOf ".xml".data (s.data.map Char.toLower)

/-- The filename `find_config_file` actually searches for: the given name
with `.xml` appended unless it already ends in `.xml` (case-insensitive). -/
def withXmlExt (config_name : String) : String :=
  if lowerEndsWithXml config_name then config_name else config_name ++ ".xml"

/-- Model of `utils.find_config_file`, parameterised by the filesystem `fs`
(`os.path.isfile`) and the resolved search-directory list (the source
defaults to `[../configs, package dir, cwd]` when `search_dirs is None`).
With no name it tries `single_spectrometer.xml` then
`double_spectrometer.xml` across all directories; otherwise it searches for
the (extension-normalised) name; raises `FileNotFoundError` when nothing
matches. -/
def find_config_file (fs : String → Bool) (search_dirs : List String)
    (config_name : Option String) : Except PyExc String :=
  match config_name with
  | none =>
    let candidates :=
      search_dirs.map (fun d => path_join d "single_spectrometer.xml") ++
      search_dirs.map (fun d => path_join d "double_spectrometer.xml")
    match candidates.find? fs with
    | some p => Except.ok p
    | none => Except.error (PyExc.fileNotFoundError
        "Could not find default configuration files: single_spectrometer.xml, double_spectrometer.xml")
  | some name0 =>
    let name := withXmlExt name0
    match (search_dirs.map (fun d => path_join d name)).find? fs with
    | some p => Except.ok p
    | none => Except.error (PyExc.fileNotFoundError
        ("Could not find configuration file: " ++ name))

/-- Wrapper method `GlazLib.__init__`: resolve a configuration path (a supplied path that is
a file, else a `find_config_file` search; with no supplied path a default
search whose `FileNotFoundError` is caught and mapped to `None`), then take
exactly one initialisation path: `initialiseSession(config_path)` when a
path was resolved, else
`initialiseSingleDeviceSession(device_type, use_defaults, allow_demo)`.
`self._initialized` becomes `True` only after a success status. -/
def glazInit (fs : String → Bool) (search_dirs : List String) (env : NativeEnv)
    (config_file : Option String) (device_type : Int)
    (use_defaults allow_demo : Bool) :
    Except PyExc Unit × List NativeCall × SessionState :=
  let s0 : SessionState := ⟨false⟩
  let config_path : Except PyExc (Option String) :=
    match config_file with
    | some cf =>
      if fs cf then Except.ok (some cf)
      else
        match find_config_file fs search_dirs (some cf) with
        | Except.ok p => Except.ok (some p)
        | Except.error e => Except.error e
    | none =>
      match find_config_file fs search_dirs none with
      | Except.ok p => Except.ok (some p)
      | Except.error _ => Except.ok none
  match config_path with
  | Except.error e => (Except.error e, [], s0)
  | Except.ok (some p) =>
    let st := env.initialiseSessionStatus p
    if st ≠ ERROR_NONE then
      let (e, t) := raiseWithLastError "Failed to initialize GlazLib session with config file: " env
      (Except.error e, NativeCall.initialiseSession p :: t, s0)
    else
      (Except.ok (), [NativeCall.initialiseSession p], ⟨true⟩)
  | Except.ok none =>
    let st := env.initialiseSingleDeviceSessionStatus device_type use_defaults allow_demo
    if st ≠ ERROR_NONE then
      let (e, t) := raiseWithLastError "Failed to initialize GlazLib session with device type: " env
      (Except.error e,
       NativeCall.initialiseSingleDeviceSession device_type use_defaults allow_demo :: t, s0)
    else
      (Except.ok (),
       [NativeCall.initialiseSingleDeviceSession device_type use_defaults allow_demo], ⟨true⟩)

/-- Wrapper method `GlazLib.close`: no-op when `self._initialized` is false; otherwise calls
`closeSession`, marks the session closed in every branch (also inside the
`except` handler), swallows the benign codes in `[ERROR_NOT_INITIALISED]`,
and raises `RuntimeError` for every other failing status.  A native call
raising a non-`RuntimeError` exception is caught, logged, and swallowed
after marking the session closed. -/
def close (env : NativeEnv) (s : SessionState) :
    Except PyExc Unit × List NativeCall × SessionState :=
  if s.initialised = false then
    (Except.ok (), [], s)
  else if env.closeSessionThrows then
    (Except.ok (), [NativeCall.closeSession], ⟨false⟩)
  else
    let status := env.closeSessionStatus
    if status ≠ ERROR_NONE then
      let (msg, t) := get_last_error_message env
      if status ∈ ([ERROR_NOT_INITIALISED] : List Int) then
        (Except.ok (), NativeCall.closeSession :: t, ⟨false⟩)
      else
        (Except.error (PyExc.runtimeError ("Failed to close GlazLib session: " ++ msg)),
         NativeCall.closeSession :: t, ⟨false⟩)
    else
      (Except.ok (), [NativeCall.closeSession], ⟨false⟩)

/-- Wrapper method `GlazLib.__del__` invokes `self.close()`. -/
def glazDel (env : NativeEnv) (s : SessionState) :
    Except PyExc Unit × List NativeCall × SessionState :=
  close env s

/-- A lifecycle event that triggers teardown: an explicit `close()` call or
the destruction of the `GlazLib` object (which runs `__del__`). -/
inductive LifecycleEvent where
  | explicitClose
  | destruction
deriving DecidableEq, Repr

/-- Run a sequence of lifecycle events against the session, concatenating
the native-call traces. -/
def runEvents (env : NativeEnv) (s : SessionState) :
    List LifecycleEvent → List NativeCall × SessionState
  | [] => ([], s)
  | e :: rest =>
    let step := match e with
      | LifecycleEvent.explicitClose => close env s
      | LifecycleEvent.destruction => glazDel env s
    let next := runEvents env step.2.2 rest
    (step.2.1 ++ next.1, next.2)

/-- Is a trace entry the `closeSession` native call? -/
def isCloseCall : NativeCall → Bool
  | NativeCall.closeSession => true
  | _ => false

/-- How many times a trace invokes `closeSession`. -/
def closeCallCount (t : List NativeCall) : Nat := (t.filter isCloseCall).length

/-- Is a trace entry one of the two native initialise calls? -/
def isInitialiseCall : NativeCall → Bool
  | NativeCall.initialiseSession _ => true
  | NativeCall.initialiseSingleDeviceSession _ _ _ => true
  | _ => false

/-- How many times a trace invokes a native initialise entry point. -/
def initialiseCallCount (t : List NativeCall) : Nat := (t.filter isInitialiseCall).length

/-- The output of an operation is the raised `RuntimeError` whose payload is
`label ++` the fetched native message, the trace is the failing call followed
immediately by the 1024-byte `getLastErrorMessage` call, and the session
state is unchanged. -/
def opRaises {α : Type} (label : String) (env : NativeEnv)
    (out : Except PyExc α × List NativeCall × SessionState)
    (call : NativeCall) (s : SessionState) : Prop :=
  out = (Except.error (PyExc.runtimeError (label ++ env.lastErrorMessage)),
         [call, NativeCall.getLastErrorMessage 1024], s)

/-- Same shape for the stateless two-phase getters: the raised error carries
`label ++` the native message and the trace is the calls made so far followed
immediately by the 1024-byte `getLastErrorMessage` call. -/
def getterRaises {α : Type} (label : String) (env : NativeEnv)
    (out : Except PyExc α × List NativeCall) (calls : List NativeCall) : Prop :=
  out.1 = Except.error (PyExc.runtimeError (label ++ env.lastErrorMessage)) ∧
  out.2 = calls ++ [NativeCall.getLastErrorMessage 1024]

/-! ### Helper lemmas -/

theorem checkStatus_fail (label : String) (env : NativeEnv) (st : Int)
    (h : st ≠ ERROR_NONE) :
    checkStatus label env (PyStatus.int st) =
      (Except.error (PyExc.runtimeError (label ++ env.lastErrorMessage)),
       [NativeCall.getLastErrorMessage 1024]) := by
  simp [checkStatus, PyStatus.neInt, raiseWithLastError, get_last_error_message, h]

theorem close_on_closed (env : NativeEnv) (s : SessionState)
    (h : s.initialised = false) :
    close env s = (Except.ok (), [], s) := by
  simp [close, h]

theorem close_state_closed (env : NativeEnv) (s : SessionState) :
    ((close env s).2.2).initialised = false := by
  simp only [close, get_last_error_message]
  split_ifs <;> simp_all

theorem closeCallCount_append (a b : List NativeCall) :
    closeCallCount (a ++ b) = closeCallCount a + closeCallCount b := by
  simp [closeCallCount, List.filter_append]

theorem closeCallCount_close_open (env : NativeEnv) (s : SessionState)
    (h : s.initialised = true) :
    closeCallCount (close env s).2.1 = 1 := by
  simp only [close, get_last_error_message]
  split_ifs <;> simp_all [closeCallCount, isCloseCall]

theorem runEvents_closed (env : NativeEnv) (s : SessionState)
    (h : s.initialised = false) :
    ∀ evs, runEvents env s evs = ([], s) := by
  intro evs
  induction evs with
  | nil => rfl
  | cons e rest ih =>
    cases e <;> simp [runEvents, glazDel, close_on_closed env s h, ih]

theorem runEvents_cons (env : NativeEnv) (s : SessionState) (e : LifecycleEvent)
    (rest : List LifecycleEvent) :
    runEvents env s (e :: rest) =
      ((close env s).2.1 ++ (runEvents env (close env s).2.2 rest).1,
       (runEvents env (close env s).2.2 rest).2) := by
  cases e <;> rfl

theorem runEvents_closeCallCount (env : NativeEnv) (s : SessionState)
    (evs : List LifecycleEvent) :
    closeCallCount (runEvents env s evs).1 =
      if s.initialised = true ∧ evs ≠ [] then 1 else 0 := by
  cases evs with
  | nil => simp [runEvents, closeCallCount]
  | cons e rest =>
    rw [runEvents_cons]
    by_cases h : s.initialised = true
    · rw [closeCallCount_append, closeCallCount_close_open env s h,
        runEvents_closed env _ (close_state_closed env s) rest]
      simp [closeCallCount, h]
    · have hf : s.initialised = false := by
        cases hi : s.initialised
        · rfl
        · exact absurd hi h
      rw [close_on_closed env s hf]
      rw [runEvents_closed env s hf rest]
      simp [closeCallCount, hf]

/-! ### Claim theorems -/

/-- C10: for every argument triple, `set_usb_parameters` raises
`RuntimeError`, even though the underlying native call is not observed to
fail: `_bindings.py` declares `setUSBParameters` with `restype = None`, so
the wrapper's `status != ERROR_NONE` check compares `None` against `0` and
always takes the error branch. -/
theorem set_usb_parameters_always_raises (env : NativeEnv) (s : SessionState)
    (timeout bulk_size queue_size : Int) :
    set_usb_parameters env s timeout bulk_size queue_size =
      (Except.error (PyExc.runtimeError
         ("Failed to set USB parameters: " ++ env.lastErrorMessage)),
       [NativeCall.setUSBParameters timeout bulk_size queue_size,
        NativeCall.getLastErrorMessage 1024],
       s) := rfl

/-- C4: `close()` is idempotent: on an already-closed session it returns
normally, performs no native call and leaves the state unchanged, and for
every session state calling `close()` twice in a row leaves the same state
as calling it once, the second call being a no-op. -/
theorem close_is_idempotent (env : NativeEnv) (s : SessionState) :
    (s.initialised = false → close env s = (Except.ok (), [], s)) ∧
    close env ((close env s).2.2) = (Except.ok (), [], (close env s).2.2) := by
  refine ⟨fun h => close_on_closed env s h, ?_⟩
  exact close_on_closed env _ (close_state_closed env s)

/-- Witness for C4 at a closed session and a concrete environment. -/
theorem close_is_idempotent_witness :
    close { lastErrorMessage := "m" } ⟨false⟩ = (Except.ok (), [], ⟨false⟩) :=
  (close_is_idempotent { lastErrorMessage := "m" } ⟨false⟩).1 rfl

/-- C5: calling `close()` on an open session marks the session closed in
every outcome (failing status or a thrown native exception), raises nothing
for the benign `ERROR_NOT_INITIALISED` status, and raises a `RuntimeError`
carrying the fetched native message for every other failing status. -/
theorem close_marks_closed_and_filters_benign (env : NativeEnv) (s : SessionState)
    (h : s.initialised = true) :
    ((close env s).2.2).initialised = false
  ∧ (env.closeSessionThrows = true → (close env s).1 = Except.ok ())
  ∧ (env.closeSessionThrows = false → env.closeSessionStatus = ERROR_NOT_INITIALISED →
       (close env s).1 = Except.ok ())
  ∧ (env.closeSessionThrows = false → env.closeSessionStatus ≠ ERROR_NONE →
       env.closeSessionStatus ∉ ([ERROR_NOT_INITIALISED] : List Int) →
       (close env s).1 = Except.error (PyExc.runtimeError
         ("Failed to close GlazLib session: " ++ env.lastErrorMessage))) := by
  refine ⟨close_state_closed env s, fun ht => ?_, fun ht hb => ?_, fun ht hne hnb => ?_⟩
  · simp [close, h, ht]
  · simp [close, h, ht, hb, get_last_error_message, ERROR_NOT_INITIALISED, ERROR_NONE]
  · simp_all [close, h, ht, get_last_error_message]

/-- Witness for C5: a concrete open session whose `closeSession` returns the
non-benign status 3. -/
theorem close_marks_closed_and_filters_benign_witness :
    ((close { lastErrorMessage := "m", closeSessionStatus := 3 } ⟨true⟩).2.2).initialised = false
  ∧ (close { lastErrorMessage := "m", closeSessionStatus := 3 } ⟨true⟩).1 =
      Except.error (PyExc.runtimeError ("Failed to close GlazLib session: " ++ "m")) := by
  have h := close_marks_closed_and_filters_benign
    { lastErrorMessage := "m", closeSessionStatus := 3 } ⟨true⟩ rfl
  exact ⟨h.1, h.2.2.2 rfl (by decide) (by decide)⟩

/-- C9: `__del__` runs `close()`, and across any sequence of lifecycle
events (explicit `close()` calls and object destructions) the native
`closeSession` call is issued at most once; from an open session it is
issued exactly once as soon as at least one event occurs. -/
theorem close_releases_handle_at_most_once (env : NativeEnv) (s : SessionState)
    (evs : List LifecycleEvent) :
    glazDel env s = close env s
  ∧ closeCallCount (runEvents env s evs).1 ≤ 1
  ∧ (s.initialised = true → evs ≠ [] →
       closeCallCount (runEvents env s evs).1 = 1) := by
  refine ⟨rfl, ?_, ?_⟩
  · rw [runEvents_closeCallCount]
    split_ifs <;> simp
  · intro h hne
    rw [runEvents_closeCallCount]
    simp [h, hne]

/-- Witness for C9: an open session torn down by an explicit close followed
by destruction issues `closeSession` exactly once. -/
theorem close_releases_handle_at_most_once_witness :
    closeCallCount (runEvents { lastErrorMessage := "m" } ⟨true⟩
      [LifecycleEvent.explicitClose, LifecycleEvent.destruction]).1 = 1 :=
  (close_releases_handle_at_most_once { lastErrorMessage := "m" } ⟨true⟩
    [LifecycleEvent.explicitClose, LifecycleEvent.destruction]).2.2 rfl (by decide)

/-- C6: every configuration setter, on a failing native status, raises and
leaves the session state (the `_initialized` flag) unchanged, so the session
stays open for subsequent calls. -/
theorem failing_setters_leave_session_open (env : NativeEnv) (s : SessionState) :
    (∀ v, env.setTestModeStatus v ≠ ERROR_NONE →
      (set_test_mode env s v).1.isOk = false ∧ (set_test_mode env s v).2.2 = s)
  ∧ (∀ a b, env.setWavelengthsStatus a b ≠ ERROR_NONE →
      (set_wavelengths env s a b).1.isOk = false ∧ (set_wavelengths env s a b).2.2 = s)
  ∧ (∀ v, env.setHardwareAveragingStatus v ≠ ERROR_NONE →
      (set_hardware_averaging env s v).1.isOk = false ∧ (set_hardware_averaging env s v).2.2 = s)
  ∧ (∀ v, env.setResolutionStatus v ≠ ERROR_NONE →
      (set_resolution env s v).1.isOk = false ∧ (set_resolution env s v).2.2 = s)
  ∧ (∀ v, env.setScanCountStatus v ≠ ERROR_NONE →
      (set_scan_count env s v).1.isOk = false ∧ (set_scan_count env s v).2.2 = s)
  ∧ (∀ v, env.setScanClockSpeedStatus v ≠ ERROR_NONE →
      (set_scan_clock_speed env s v).1.isOk = false ∧ (set_scan_clock_speed env s v).2.2 = s)
  ∧ (∀ v, env.setADCGainStatus v ≠ ERROR_NONE →
      (set_adc_gain env s v).1.isOk = false ∧ (set_adc_gain env s v).2.2 = s)
  ∧ (∀ v, env.setTriggerDelayStatus v ≠ ERROR_NONE →
      (set_trigger_delay env s v).1.isOk = false ∧ (set_trigger_delay env s v).2.2 = s)
  ∧ (∀ v, env.setTriggerModeStatus v ≠ ERROR_NONE →
      (set_trigger_mode env s v).1.isOk = false ∧ (set_trigger_mode env s v).2.2 = s)
  ∧ (∀ v, env.setInternalTriggerFrequencyStatus v ≠ ERROR_NONE →
      (set_internal_trigger_frequency env s v).1.isOk = false ∧
        (set_internal_trigger_frequency env s v).2.2 = s)
  ∧ (∀ v, env.setIntegrationModeStatus v ≠ ERROR_NONE →
      (set_integration_mode env s v).1.isOk = false ∧ (set_integration_mode env s v).2.2 = s)
  ∧ (∀ v, env.setIntegrationTimeStatus v ≠ ERROR_NONE →
      (set_integration_time env s v).1.isOk = false ∧ (set_integration_time env s v).2.2 = s)
  ∧ (∀ v, env.setSyncOutModeStatus v ≠ ERROR_NONE →
      (set_sync_out_mode env s v).1.isOk = false ∧ (set_sync_out_mode env s v).2.2 = s)
  ∧ (∀ v, env.setSyncOutPolarityStatus v ≠ ERROR_NONE →
      (set_sync_out_polarity env s v).1.isOk = false ∧ (set_sync_out_polarity env s v).2.2 = s)
  ∧ (∀ v, env.setAuxOutModeStatus v ≠ ERROR_NONE →
      (set_aux_out_mode env s v).1.isOk = false ∧ (set_aux_out_mode env s v).2.2 = s)
  ∧ (∀ v, env.setAuxOutPolarityStatus v ≠ ERROR_NONE →
      (set_aux_out_polarity env s v).1.isOk = false ∧ (set_aux_out_polarity env s v).2.2 = s)
  ∧ (∀ v, env.setOutCycleCountStatus v ≠ ERROR_NONE →
      (set_out_cycle_count env s v).1.isOk = false ∧ (set_out_cycle_count env s v).2.2 = s)
  ∧ (∀ v, env.setTimeoutStatus v ≠ ERROR_NONE →
      (set_timeout env s v).1.isOk = false ∧ (set_timeout env s v).2.2 = s) := by
  refine ⟨fun v h => ?_, fun a b h => ?_, fun v h => ?_, fun v h => ?_, fun v h => ?_,
    fun v h => ?_, fun v h => ?_, fun v h => ?_, fun v h => ?_, fun v h => ?_,
    fun v h => ?_, fun v h => ?_, fun v h => ?_, fun v h => ?_, fun v h => ?_,
    fun v h => ?_, fun v h => ?_, fun v h => ?_⟩ <;>
  simp [set_test_mode, set_wavelengths, set_hardware_averaging, set_resolution,
    set_scan_count, set_scan_clock_speed, set_adc_gain, set_trigger_delay,
    set_trigger_mode, set_internal_trigger_frequency, set_integration_mode,
    set_integration_time, set_sync_out_mode, set_sync_out_polarity,
    set_aux_out_mode, set_aux_out_polarity, set_out_cycle_count, set_timeout,
    checkStatus, PyStatus.neInt, raiseWithLastError, get_last_error_message,
    Except.isOk, Except.toBool, h]

/-- Witness for C6: concrete failing setters leave a concrete open session
open. -/
theorem failing_setters_leave_session_open_witness :
    ((set_trigger_mode { lastErrorMessage := "m", setTriggerModeStatus := fun _ => 8 }
        ⟨true⟩ 1).1.isOk = false ∧
     (set_trigger_mode { lastErrorMessage := "m", setTriggerModeStatus := fun _ => 8 }
        ⟨true⟩ 1).2.2 = ⟨true⟩)
  ∧ ((set_scan_count { lastErrorMessage := "m", setScanCountStatus := fun _ => 7 }
        ⟨true⟩ (-5)).1.isOk = false ∧
     (set_scan_count { lastErrorMessage := "m", setScanCountStatus := fun _ => 7 }
        ⟨true⟩ (-5)).2.2 = ⟨true⟩) :=
  ⟨(failing_setters_leave_session_open
      { lastErrorMessage := "m", setTriggerModeStatus := fun _ => 8 } ⟨true⟩).2.2.2.2.2.2.2.2.1
      1 (by decide),
   (failing_setters_leave_session_open
      { lastErrorMessage := "m", setScanCountStatus := fun _ => 7 } ⟨true⟩).2.2.2.2.1
      (-5) (by decide)⟩

/-- Example environment for the all-scans matrix: a 2 x 3 result whose raw
samples exceed 16 bits, exercising the `c_uint16` width reduction. -/
def envMatrix : NativeEnv :=
  { getAllScansNumScans := fun _ => 2, getAllScansPixels := fun _ => 3,
    getAllScansValue := fun _ i => 65536 + i }

/-- C8: when both queried sizes are positive and the fetch succeeds,
`get_all_scans` returns a row-major matrix of shape
`(num_scans, pixels_per_scan)` whose entry `(r, c)` is buffer cell
`r * pixels_per_scan + c`, every entry being an unsigned 16-bit value
(the raw sample reduced mod 2^16, not widened). -/
theorem get_all_scans_returns_uint16_matrix (env : NativeEnv) (index : Int)
    (h0 : env.getAllScansSizesStatus index = 0)
    (hn : 0 < env.getAllScansNumScans index)
    (hp : 0 < env.getAllScansPixels index)
    (h1 : env.getAllScansStatus index = 0) :
    ∃ m, (get_all_scans env index).1 = Except.ok m
      ∧ m.length = (env.getAllScansNumScans index).toNat
      ∧ (∀ row ∈ m, row.length = (env.getAllScansPixels index).toNat)
      ∧ (∀ row ∈ m, ∀ v ∈ row, v < 65536)
      ∧ (∀ r c, r < (env.getAllScansNumScans index).toNat →
           c < (env.getAllScansPixels index).toNat →
           (m.getD r []).getD c 0 =
             env.getAllScansValue index
               (r * (env.getAllScansPixels index).toNat + c) % 65536) := by
  refine ⟨(List.range (env.getAllScansNumScans index).toNat).map (fun r =>
    (List.range (env.getAllScansPixels index).toNat).map (fun c =>
      env.getAllScansValue index (r * (env.getAllScansPixels index).toNat + c) % 65536)),
    ?_, ?_, ?_, ?_, ?_⟩
  · simp [get_all_scans, get_all_scans_sizes, h0, h1, hn.not_le, hp.not_le, ERROR_NONE]
  · simp
  · intro row hrow
    rcases List.mem_map.mp hrow with ⟨r, _, hr⟩
    simp [← hr]
  · intro row hrow v hv
    rcases List.mem_map.mp hrow with ⟨r, _, hr⟩
    rw [← hr] at hv
    rcases List.mem_map.mp hv with ⟨c, _, hc⟩
    rw [← hc]
    exact Nat.mod_lt _ (by norm_num)
  · intro r c hr hc
    have houter :
        ((List.range (env.getAllScansNumScans index).toNat).map (fun r =>
          (List.range (env.getAllScansPixels index).toNat).map (fun c =>
            env.getAllScansValue index
              (r * (env.getAllScansPixels index).toNat + c) % 65536))).getD r []
        = (List.range (env.getAllScansPixels index).toNat).map (fun c =>
            env.getAllScansValue index
              (r * (env.getAllScansPixels index).toNat + c) % 65536) := by
      rw [List.getD_eq_getElem _ _ (by simpa using hr)]
      simp
    rw [houter, List.getD_eq_getElem _ _ (by simpa using hc)]
    simp

/-- Witness for C8 on `envMatrix`: a concrete 2 x 3 matrix of 16-bit
samples. -/
theorem get_all_scans_returns_uint16_matrix_witness :
    ∃ m, (get_all_scans envMatrix 0).1 = Except.ok m
      ∧ m.length = (envMatrix.getAllScansNumScans 0).toNat
      ∧ (∀ row ∈ m, row.length = (envMatrix.getAllScansPixels 0).toNat)
      ∧ (∀ row ∈ m, ∀ v ∈ row, v < 65536)
      ∧ (∀ r c, r < (envMatrix.getAllScansNumScans 0).toNat →
           c < (envMatrix.getAllScansPixels 0).toNat →
           (m.getD r []).getD c 0 =
             envMatrix.getAllScansValue 0
               (r * (envMatrix.getAllScansPixels 0).toNat + c) % 65536) :=
  get_all_scans_returns_uint16_matrix envMatrix 0 rfl (by decide) (by decide) rfl

/-- C1: for every variable-length getter, if the (successful) size query
reports a count `<= 0`, the operation returns an empty container (with
size 0 where a size is returned), makes no data-fetch native call, and
raises nothing: the trace is exactly the single size-query call. -/
theorem getters_empty_on_nonpositive_size (env : NativeEnv) (i si ch : Int) :
    (env.getResultQueryStatus i = 0 ∧ env.getResultSize i ≤ 0 →
       get_result env i = (Except.ok ([], 0), [NativeCall.getResult i none]))
  ∧ (env.getComplexResultQueryStatus i = 0 ∧ env.getComplexResultSize i ≤ 0 →
       get_complex_result env i =
         (Except.ok ([], [], 0), [NativeCall.getComplexResult i none]))
  ∧ (env.getScanQueryStatus i si = 0 ∧ env.getScanSize i si ≤ 0 →
       get_scan env i si = (Except.ok ([], 0), [NativeCall.getScan i si none]))
  ∧ (env.getComplexScanQueryStatus i si = 0 ∧ env.getComplexScanSize i si ≤ 0 →
       get_complex_scan env i si =
         (Except.ok ([], [], 0), [NativeCall.getComplexScan i si none]))
  ∧ (env.getAllScansSizesStatus i = 0 ∧
       (env.getAllScansNumScans i ≤ 0 ∨ env.getAllScansPixels i ≤ 0) →
       get_all_scans env i = (Except.ok [], [NativeCall.getAllScansSizes i]))
  ∧ (env.getPDValuesQueryStatus i ch = 0 ∧ env.getPDValuesSize i ch ≤ 0 →
       get_pd_values env i ch = (Except.ok ([], 0), [NativeCall.getPDValues i ch none]))
  ∧ (env.getAUXStatesQueryStatus i = 0 ∧ env.getAUXStatesSize i ≤ 0 →
       get_aux_states env i = (Except.ok ([], 0), [NativeCall.getAUXStates i none]))
  ∧ (env.getAUXCycleCountsQueryStatus i ch = 0 ∧ env.getAUXCycleCountsSize i ch ≤ 0 →
       get_aux_cycle_counts env i ch =
         (Except.ok ([], 0), [NativeCall.getAUXCycleCounts i ch none])) := by
  refine ⟨fun ⟨h1, h2⟩ => ?_, fun ⟨h1, h2⟩ => ?_, fun ⟨h1, h2⟩ => ?_, fun ⟨h1, h2⟩ => ?_,
    fun ⟨h1, h2⟩ => ?_, fun ⟨h1, h2⟩ => ?_, fun ⟨h1, h2⟩ => ?_, fun ⟨h1, h2⟩ => ?_⟩ <;>
  simp [get_result, get_complex_result, get_scan, get_complex_scan, get_all_scans,
    get_all_scans_sizes, get_pd_values, get_aux_states, get_aux_cycle_counts,
    ERROR_NONE, h1, h2]

/-- Witness for C1: a default environment reports every count as 0, so every
getter returns its empty container after a single size-query call. -/
theorem getters_empty_on_nonpositive_size_witness :
    get_result ({} : NativeEnv) 0 = (Except.ok ([], 0), [NativeCall.getResult 0 none])
  ∧ get_aux_states ({} : NativeEnv) 0 =
      (Except.ok ([], 0), [NativeCall.getAUXStates 0 none])
  ∧ get_all_scans ({} : NativeEnv) 0 =
      (Except.ok [], [NativeCall.getAllScansSizes 0]) :=
  ⟨(getters_empty_on_nonpositive_size {} 0 0 0).1 ⟨rfl, by decide⟩,
   (getters_empty_on_nonpositive_size {} 0 0 0).2.2.2.2.2.2.1 ⟨rfl, by decide⟩,
   (getters_empty_on_nonpositive_size {} 0 0 0).2.2.2.2.1 ⟨rfl, by decide⟩⟩

/-- C2: for every variable-length getter, when the (successful) size query
reports a positive count the data-fetch call is made with a buffer of
exactly the queried capacity (`num_scans * pixels_per_scan` for the matrix
case) as the immediately following native call, and every data buffer
appearing anywhere in the trace has exactly that queried capacity — the
caller supplies no size. -/
theorem getters_fetch_buffer_capacity_exact (env : NativeEnv) (i si ch : Int) :
    (env.getResultQueryStatus i = 0 → 0 < env.getResultSize i →
       (get_result env i).2.take 2 =
         [NativeCall.getResult i none,
          NativeCall.getResult i (some (env.getResultSize i).toNat)] ∧
       ∀ cap, NativeCall.getResult i (some cap) ∈ (get_result env i).2 →
         cap = (env.getResultSize i).toNat)
  ∧ (env.getComplexResultQueryStatus i = 0 → 0 < env.getComplexResultSize i →
       (get_complex_result env i).2.take 2 =
         [NativeCall.getComplexResult i none,
          NativeCall.getComplexResult i (some (env.getComplexResultSize i).toNat)] ∧
       ∀ cap, NativeCall.getComplexResult i (some cap) ∈ (get_complex_result env i).2 →
         cap = (env.getComplexResultSize i).toNat)
  ∧ (env.getScanQueryStatus i si = 0 → 0 < env.getScanSize i si →
       (get_scan env i si).2.take 2 =
         [NativeCall.getScan i si none,
          NativeCall.getScan i si (some (env.getScanSize i si).toNat)] ∧
       ∀ cap, NativeCall.getScan i si (some cap) ∈ (get_scan env i si).2 →
         cap = (env.getScanSize i si).toNat)
  ∧ (env.getComplexScanQueryStatus i si = 0 → 0 < env.getComplexScanSize i si →
       (get_complex_scan env i si).2.take 2 =
         [NativeCall.getComplexScan i si none,
          NativeCall.getComplexScan i si (some (env.getComplexScanSize i si).toNat)] ∧
       ∀ cap, NativeCall.getComplexScan i si (some cap) ∈ (get_complex_scan env i si).2 →
         cap = (env.getComplexScanSize i si).toNat)
  ∧ (env.getAllScansSizesStatus i = 0 → 0 < env.getAllScansNumScans i →
       0 < env.getAllScansPixels i →
       (get_all_scans env i).2.take 2 =
         [NativeCall.getAllScansSizes i,
          NativeCall.getAllScans i
            ((env.getAllScansNumScans i).toNat * (env.getAllScansPixels i).toNat)] ∧
       ∀ cap, NativeCall.getAllScans i cap ∈ (get_all_scans env i).2 →
         cap = (env.getAllScansNumScans i).toNat * (env.getAllScansPixels i).toNat)
  ∧ (env.getPDValuesQueryStatus i ch = 0 → 0 < env.getPDValuesSize i ch →
       (get_pd_values env i ch).2.take 2 =
         [NativeCall.getPDValues i ch none,
          NativeCall.getPDValues i ch (some (env.getPDValuesSize i ch).toNat)] ∧
       ∀ cap, NativeCall.getPDValues i ch (some cap) ∈ (get_pd_values env i ch).2 →
         cap = (env.getPDValuesSize i ch).toNat)
  ∧ (env.getAUXStatesQueryStatus i = 0 → 0 < env.getAUXStatesSize i →
       (get_aux_states env i).2.take 2 =
         [NativeCall.getAUXStates i none,
          NativeCall.getAUXStates i (some (env.getAUXStatesSize i).toNat)] ∧
       ∀ cap, NativeCall.getAUXStates i (some cap) ∈ (get_aux_states env i).2 →
         cap = (env.getAUXStatesSize i).toNat)
  ∧ (env.getAUXCycleCountsQueryStatus i ch = 0 → 0 < env.getAUXCycleCountsSize i ch →
       (get_aux_cycle_counts env i ch).2.take 2 =
         [NativeCall.getAUXCycleCounts i ch none,
          NativeCall.getAUXCycleCounts i ch (some (env.getAUXCycleCountsSize i ch).toNat)] ∧
       ∀ cap, NativeCall.getAUXCycleCounts i ch (some cap) ∈ (get_aux_cycle_counts env i ch).2 →
         cap = (env.getAUXCycleCountsSize i ch).toNat) := by
  refine ⟨fun h1 h2 => ?_, fun h1 h2 => ?_, fun h1 h2 => ?_, fun h1 h2 => ?_,
    fun h1 h2 h3 => ?_, fun h1 h2 => ?_, fun h1 h2 => ?_, fun h1 h2 => ?_⟩
  · by_cases hf : env.getResultFetchStatus i = 0 <;>
      simp [get_result, ERROR_NONE, h1, not_le.mpr h2, hf,
        raiseWithLastError, get_last_error_message]
  · by_cases hf : env.getComplexResultFetchStatus i = 0 <;>
      simp [get_complex_result, ERROR_NONE, h1, not_le.mpr h2, hf,
        raiseWithLastError, get_last_error_message]
  · by_cases hf : env.getScanFetchStatus i si = 0 <;>
      simp [get_scan, ERROR_NONE, h1, not_le.mpr h2, hf,
        raiseWithLastError, get_last_error_message]
  · by_cases hf : env.getComplexScanFetchStatus i si = 0 <;>
      simp [get_complex_scan, ERROR_NONE, h1, not_le.mpr h2, hf,
        raiseWithLastError, get_last_error_message]
  · by_cases hf : env.getAllScansStatus i = 0 <;>
      simp [get_all_scans, get_all_scans_sizes, ERROR_NONE, h1,
        not_le.mpr h2, not_le.mpr h3, hf, raiseWithLastError, get_last_error_message]
  · by_cases hf : env.getPDValuesFetchStatus i ch = 0 <;>
      simp [get_pd_values, ERROR_NONE, h1, not_le.mpr h2, hf,
        raiseWithLastError, get_last_error_message]
  · by_cases hf : env.getAUXStatesFetchStatus i = 0 <;>
      simp [get_aux_states, ERROR_NONE, h1, not_le.mpr h2, hf,
        raiseWithLastError, get_last_error_message]
  · by_cases hf : env.getAUXCycleCountsFetchStatus i ch = 0 <;>
      simp [get_aux_cycle_counts, ERROR_NONE, h1, not_le.mpr h2, hf,
        raiseWithLastError, get_last_error_message]

/-- Witness for C2: with a queried count of 3 (and a 2 x 3 matrix), the
fetch buffers have capacity exactly 3 (and 6). -/
theorem getters_fetch_buffer_capacity_exact_witness :
    ((get_result { getResultSize := fun _ => 3 } 0).2.take 2 =
       [NativeCall.getResult 0 none, NativeCall.getResult 0 (some 3)] ∧
     ∀ cap, NativeCall.getResult 0 (some cap) ∈
         (get_result { getResultSize := fun _ => 3 } 0).2 → cap = 3)
  ∧ ((get_all_scans envMatrix 0).2.take 2 =
       [NativeCall.getAllScansSizes 0, NativeCall.getAllScans 0 6] ∧
     ∀ cap, NativeCall.getAllScans 0 cap ∈ (get_all_scans envMatrix 0).2 → cap = 6) :=
  ⟨(getters_fetch_buffer_capacity_exact { getResultSize := fun _ => 3 } 0 0 0).1
      rfl (by decide),
   (getters_fetch_buffer_capacity_exact envMatrix 0 0 0).2.2.2.2.1
      rfl (by decide) (by decide)⟩

/-- Environment where `setTriggerMode` fails with status 8
(`ERROR_INVALID_TRIGGER_MODE`) and the native message is `"bad mode"`. -/
def envTrigFail : NativeEnv := { lastErrorMessage := "bad mode", setTriggerModeStatus := fun _ => 8 }

/-- Environment where `setTestMode` fails with status 2 and the result-size
query fails with status 16, with native message `"m"`. -/
def envOpsFail : NativeEnv := { lastErrorMessage := "m", setTestModeStatus := fun _ => 2, getResultQueryStatus := fun _ => 16 }

/-- Counterexample for C3 as stated: `set_trigger_mode` failing with native
status 8 raises a `RuntimeError` whose payload is exactly
`"Failed to set trigger mode: bad mode"` — the operation name and the
fetched native message — but the decimal rendering `"8"` of the numeric
status code appears nowhere in the raised error. -/
theorem raised_error_lacks_status_code :
    (set_trigger_mode envTrigFail ⟨true⟩ 1).1 =
      Except.error (PyExc.runtimeError "Failed to set trigger mode: bad mode")
  ∧ envTrigFail.setTriggerModeStatus 1 = 8
  ∧ toString (8 : Int) = "8"
  ∧ "Failed to set trigger mode: bad mode".data.contains '8' = false := by
  exact ⟨rfl, rfl, rfl, by decide⟩

/-- C3 (amended): for every operation, a failing native status makes the
wrapper immediately call `getLastErrorMessage` with the fixed 1024-byte
buffer as the very next native call and raise a `RuntimeError` whose payload
is the operation's label followed by the fetched native message (the numeric
status code itself is not part of the raised error). -/
theorem failing_calls_fetch_message_and_raise (env : NativeEnv) (s : SessionState)
    (i si ch : Int) :
    (∀ v, env.setTestModeStatus v ≠ ERROR_NONE →
      opRaises "Failed to set test mode: " env (set_test_mode env s v)
        (NativeCall.setTestMode v) s)
  ∧ (∀ a b, env.setWavelengthsStatus a b ≠ ERROR_NONE →
      opRaises "Failed to set wavelength range: " env (set_wavelengths env s a b)
        (NativeCall.setWavelengths a b) s)
  ∧ (∀ v, env.setHardwareAveragingStatus v ≠ ERROR_NONE →
      opRaises "Failed to set hardware averaging: " env (set_hardware_averaging env s v)
        (NativeCall.setHardwareAveraging v) s)
  ∧ (∀ v, env.setResolutionStatus v ≠ ERROR_NONE →
      opRaises "Failed to set resolution: " env (set_resolution env s v)
        (NativeCall.setResolution v) s)
  ∧ (∀ v, env.setScanCountStatus v ≠ ERROR_NONE →
      opRaises "Failed to set scan count: " env (set_scan_count env s v)
        (NativeCall.setScanCount v) s)
  ∧ (∀ v, env.setScanClockSpeedStatus v ≠ ERROR_NONE →
      opRaises "Failed to set scan clock speed: " env (set_scan_clock_speed env s v)
        (NativeCall.setScanClockSpeed v) s)
  ∧ (∀ v, env.setADCGainStatus v ≠ ERROR_NONE →
      opRaises "Failed to set ADC gain: " env (set_adc_gain env s v)
        (NativeCall.setADCGain v) s)
  ∧ (∀ v, env.setTriggerDelayStatus v ≠ ERROR_NONE →
      opRaises "Failed to set trigger delay: " env (set_trigger_delay env s v)
        (NativeCall.setTriggerDelay v) s)
  ∧ (∀ v, env.setTriggerModeStatus v ≠ ERROR_NONE →
      opRaises "Failed to set trigger mode: " env (set_trigger_mode env s v)
        (NativeCall.setTriggerMode v) s)
  ∧ (∀ v, env.setInternalTriggerFrequencyStatus v ≠ ERROR_NONE →
      opRaises "Failed to set internal trigger frequency: " env
        (set_internal_trigger_frequency env s v)
        (NativeCall.setInternalTriggerFrequency v) s)
  ∧ (∀ v, env.setIntegrationModeStatus v ≠ ERROR_NONE →
      opRaises "Failed to set integration mode: " env (set_integration_mode env s v)
        (NativeCall.setIntegrationMode v) s)
  ∧ (∀ v, env.setIntegrationTimeStatus v ≠ ERROR_NONE →
      opRaises "Failed to set integration time: " env (set_integration_time env s v)
        (NativeCall.setIntegrationTime v) s)
  ∧ (∀ v, env.setSyncOutModeStatus v ≠ ERROR_NONE →
      opRaises "Failed to set sync output mode: " env (set_sync_out_mode env s v)
        (NativeCall.setSyncOutMode v) s)
  ∧ (∀ v, env.setSyncOutPolarityStatus v ≠ ERROR_NONE →
      opRaises "Failed to set sync output polarity: " env (set_sync_out_polarity env s v)
        (NativeCall.setSyncOutPolarity v) s)
  ∧ (∀ v, env.setAuxOutModeStatus v ≠ ERROR_NONE →
      opRaises "Failed to set auxiliary output mode: " env (set_aux_out_mode env s v)
        (NativeCall.setAuxOutMode v) s)
  ∧ (∀ v, env.setAuxOutPolarityStatus v ≠ ERROR_NONE →
      opRaises "Failed to set auxiliary output polarity: " env
        (set_aux_out_polarity env s v) (NativeCall.setAuxOutPolarity v) s)
  ∧ (∀ v, env.setOutCycleCountStatus v ≠ ERROR_NONE →
      opRaises "Failed to set output cycle count: " env (set_out_cycle_count env s v)
        (NativeCall.setOutCycleCount v) s)
  ∧ (∀ v, env.setTimeoutStatus v ≠ ERROR_NONE →
      opRaises "Failed to set timeout: " env (set_timeout env s v)
        (NativeCall.setTimeout v) s)
  ∧ (∀ v, env.captureBackgroundStatus v ≠ ERROR_NONE →
      opRaises "Failed to capture background: " env (capture_background env s v)
        (NativeCall.captureBackground v) s)
  ∧ (env.runMeasurementStatus ≠ ERROR_NONE →
      opRaises "Failed to run measurement: " env (run_measurement env s)
        NativeCall.runMeasurement s)
  ∧ (env.startMeasurementStatus ≠ ERROR_NONE →
      opRaises "Failed to start measurement: " env (start_measurement env s)
        NativeCall.startMeasurement s)
  ∧ (env.runUSBCommsTestStatus ≠ ERROR_NONE →
      opRaises "USB communications test failed: " env (run_usb_comms_test env s)
        NativeCall.runUSBCommsTest s)
  ∧ (∀ fn hdr, env.writeAllScansToFileStatus i fn hdr ≠ ERROR_NONE →
      opRaises "Failed to write all scans to file: " env
        (write_all_scans_to_file env s i fn hdr)
        (NativeCall.writeAllScansToFile i fn hdr) s)
  ∧ (env.isMeasurementDoneStatus ≠ ERROR_NONE →
      opRaises "Failed to check if measurement is done: " env
        (is_measurement_done env s) NativeCall.isMeasurementDone s)
  ∧ (env.getTimeStampStatus i ch ≠ ERROR_NONE →
      opRaises "Failed to get time stamp: " env (get_time_stamp env s i ch)
        (NativeCall.getTimeStamp i ch) s)
  ∧ (env.getPDReferenceStatus i ch ≠ ERROR_NONE →
      opRaises "Failed to get photodiode reference: " env (get_pd_reference env s i ch)
        (NativeCall.getPDReference i ch) s)
  ∧ (env.getResultQueryStatus i ≠ ERROR_NONE →
      getterRaises "Failed to get result size: " env (get_result env i)
        [NativeCall.getResult i none])
  ∧ (env.getResultQueryStatus i = ERROR_NONE → 0 < env.getResultSize i →
      env.getResultFetchStatus i ≠ ERROR_NONE →
      getterRaises "Failed to get result data: " env (get_result env i)
        [NativeCall.getResult i none,
         NativeCall.getResult i (some (env.getResultSize i).toNat)])
  ∧ (env.getComplexResultQueryStatus i ≠ ERROR_NONE →
      getterRaises "Failed to get complex result size: " env (get_complex_result env i)
        [NativeCall.getComplexResult i none])
  ∧ (env.getComplexResultQueryStatus i = ERROR_NONE → 0 < env.getComplexResultSize i →
      env.getComplexResultFetchStatus i ≠ ERROR_NONE →
      getterRaises "Failed to get complex result data: " env (get_complex_result env i)
        [NativeCall.getComplexResult i none,
         NativeCall.getComplexResult i (some (env.getComplexResultSize i).toNat)])
  ∧ (env.getScanQueryStatus i si ≠ ERROR_NONE →
      getterRaises "Failed to get scan size: " env (get_scan env i si)
        [NativeCall.getScan i si none])
  ∧ (env.getScanQueryStatus i si = ERROR_NONE → 0 < env.getScanSize i si →
      env.getScanFetchStatus i si ≠ ERROR_NONE →
      getterRaises "Failed to get scan data: " env (get_scan env i si)
        [NativeCall.getScan i si none,
         NativeCall.getScan i si (some (env.getScanSize i si).toNat)])
  ∧ (env.getComplexScanQueryStatus i si ≠ ERROR_NONE →
      getterRaises "Failed to get complex scan size: " env (get_complex_scan env i si)
        [NativeCall.getComplexScan i si none])
  ∧ (env.getComplexScanQueryStatus i si = ERROR_NONE → 0 < env.getComplexScanSize i si →
      env.getComplexScanFetchStatus i si ≠ ERROR_NONE →
      getterRaises "Failed to get complex scan data: " env (get_complex_scan env i si)
        [NativeCall.getComplexScan i si none,
         NativeCall.getComplexScan i si (some (env.getComplexScanSize i si).toNat)])
  ∧ (env.getPDValuesQueryStatus i ch ≠ ERROR_NONE →
      getterRaises "Failed to get photodiode values size: " env (get_pd_values env i ch)
        [NativeCall.getPDValues i ch none])
  ∧ (env.getPDValuesQueryStatus i ch = ERROR_NONE → 0 < env.getPDValuesSize i ch →
      env.getPDValuesFetchStatus i ch ≠ ERROR_NONE →
      getterRaises "Failed to get photodiode values: " env (get_pd_values env i ch)
        [NativeCall.getPDValues i ch none,
         NativeCall.getPDValues i ch (some (env.getPDValuesSize i ch).toNat)])
  ∧ (env.getAUXStatesQueryStatus i ≠ ERROR_NONE →
      getterRaises "Failed to get auxiliary states size: " env (get_aux_states env i)
        [NativeCall.getAUXStates i none])
  ∧ (env.getAUXStatesQueryStatus i = ERROR_NONE → 0 < env.getAUXStatesSize i →
      env.getAUXStatesFetchStatus i ≠ ERROR_NONE →
      getterRaises "Failed to get auxiliary states: " env (get_aux_states env i)
        [NativeCall.getAUXStates i none,
         NativeCall.getAUXStates i (some (env.getAUXStatesSize i).toNat)])
  ∧ (env.getAUXCycleCountsQueryStatus i ch ≠ ERROR_NONE →
      getterRaises "Failed to get auxiliary cycle counts size: " env
        (get_aux_cycle_counts env i ch) [NativeCall.getAUXCycleCounts i ch none])
  ∧ (env.getAUXCycleCountsQueryStatus i ch = ERROR_NONE → 0 < env.getAUXCycleCountsSize i ch →
      env.getAUXCycleCountsFetchStatus i ch ≠ ERROR_NONE →
      getterRaises "Failed to get auxiliary cycle counts: " env
        (get_aux_cycle_counts env i ch)
        [NativeCall.getAUXCycleCounts i ch none,
         NativeCall.getAUXCycleCounts i ch (some (env.getAUXCycleCountsSize i ch).toNat)])
  ∧ (env.getAllScansSizesStatus i ≠ ERROR_NONE →
      getterRaises "Failed to get all scans sizes: " env (get_all_scans_sizes env i)
        [NativeCall.getAllScansSizes i])
  ∧ (env.getAllScansSizesStatus i = ERROR_NONE → 0 < env.getAllScansNumScans i →
      0 < env.getAllScansPixels i → env.getAllScansStatus i ≠ ERROR_NONE →
      getterRaises "Failed to get all scans: " env (get_all_scans env i)
        [NativeCall.getAllScansSizes i,
         NativeCall.getAllScans i
           ((env.getAllScansNumScans i).toNat * (env.getAllScansPixels i).toNat)]) :=
  ⟨fun v h1 => by simp [set_test_mode, opRaises, checkStatus, PyStatus.neInt,
      raiseWithLastError, get_last_error_message, h1],
   fun a b h1 => by simp [set_wavelengths, opRaises, checkStatus, PyStatus.neInt,
      raiseWithLastError, get_last_error_message, h1],
   fun v h1 => by simp [set_hardware_averaging, opRaises, checkStatus, PyStatus.neInt,
      raiseWithLastError, get_last_error_message, h1],
   fun v h1 => by simp [set_resolution, opRaises, checkStatus, PyStatus.neInt,
      raiseWithLastError, get_last_error_message, h1],
   fun v h1 => by simp [set_scan_count, opRaises, checkStatus, PyStatus.neInt,
      raiseWithLastError, get_last_error_message, h1],
   fun v h1 => by simp [set_scan_clock_speed, opRaises, checkStatus, PyStatus.neInt,
      raiseWithLastError, get_last_error_message, h1],
   fun v h1 => by simp [set_adc_gain, opRaises, checkStatus, PyStatus.neInt,
      raiseWithLastError, get_last_error_message, h1],
   fun v h1 => by simp [set_trigger_delay, opRaises, checkStatus, PyStatus.neInt,
      raiseWithLastError, get_last_error_message, h1],
   fun v h1 => by simp [set_trigger_mode, opRaises, checkStatus, PyStatus.neInt,
      raiseWithLastError, get_last_error_message, h1],
   fun v h1 => by simp [set_internal_trigger_frequency, opRaises, checkStatus,
      PyStatus.neInt, raiseWithLastError, get_last_error_message, h1],
   fun v h1 => by simp [set_integration_mode, opRaises, checkStatus, PyStatus.neInt,
      raiseWithLastError, get_last_error_message, h1],
   fun v h1 => by simp [set_integration_time, opRaises, checkStatus, PyStatus.neInt,
      raiseWithLastError, get_last_error_message, h1],
   fun v h1 => by simp [set_sync_out_mode, opRaises, checkStatus, PyStatus.neInt,
      raiseWithLastError, get_last_error_message, h1],
   fun v h1 => by simp [set_sync_out_polarity, opRaises, checkStatus, PyStatus.neInt,
      raiseWithLastError, get_last_error_message, h1],
   fun v h1 => by simp [set_aux_out_mode, opRaises, checkStatus, PyStatus.neInt,
      raiseWithLastError, get_last_error_message, h1],
   fun v h1 => by simp [set_aux_out_polarity, opRaises, checkStatus, PyStatus.neInt,
      raiseWithLastError, get_last_error_message, h1],
   fun v h1 => by simp [set_out_cycle_count, opRaises, checkStatus, PyStatus.neInt,
      raiseWithLastError, get_last_error_message, h1],
   fun v h1 => by simp [set_timeout, opRaises, checkStatus, PyStatus.neInt,
      raiseWithLastError, get_last_error_message, h1],
   fun v h1 => by simp [capture_background, opRaises, checkStatus, PyStatus.neInt,
      raiseWithLastError, get_last_error_message, h1],
   fun h1 => by simp [run_measurement, opRaises, checkStatus, PyStatus.neInt,
      raiseWithLastError, get_last_error_message, h1],
   fun h1 => by simp [start_measurement, opRaises, checkStatus, PyStatus.neInt,
      raiseWithLastError, get_last_error_message, h1],
   fun h1 => by simp [run_usb_comms_test, opRaises, checkStatus, PyStatus.neInt,
      raiseWithLastError, get_last_error_message, h1],
   fun fn hdr h1 => by simp [write_all_scans_to_file, opRaises, checkStatus,
      PyStatus.neInt, raiseWithLastError, get_last_error_message, h1],
   fun h1 => by simp [is_measurement_done, opRaises, raiseWithLastError,
      get_last_error_message, h1],
   fun h1 => by simp [get_time_stamp, opRaises, raiseWithLastError,
      get_last_error_message, h1],
   fun h1 => by simp [get_pd_reference, opRaises, raiseWithLastError,
      get_last_error_message, h1],
   fun h1 => by simp [get_result, getterRaises, raiseWithLastError,
      get_last_error_message, h1],
   fun h1 h2 h3 => by simp [get_result, getterRaises, raiseWithLastError,
      get_last_error_message, h1, not_le.mpr h2, h3],
   fun h1 => by simp [get_complex_result, getterRaises, raiseWithLastError,
      get_last_error_message, h1],
   fun h1 h2 h3 => by simp [get_complex_result, getterRaises, raiseWithLastError,
      get_last_error_message, h1, not_le.mpr h2, h3],
   fun h1 => by simp [get_scan, getterRaises, raiseWithLastError,
      get_last_error_message, h1],
   fun h1 h2 h3 => by simp [get_scan, getterRaises, raiseWithLastError,
      get_last_error_message, h1, not_le.mpr h2, h3],
   fun h1 => by simp [get_complex_scan, getterRaises, raiseWithLastError,
      get_last_error_message, h1],
   fun h1 h2 h3 => by simp [get_complex_scan, getterRaises, raiseWithLastError,
      get_last_error_message, h1, not_le.mpr h2, h3],
   fun h1 => by simp [get_pd_values, getterRaises, raiseWithLastError,
      get_last_error_message, h1],
   fun h1 h2 h3 => by simp [get_pd_values, getterRaises, raiseWithLastError,
      get_last_error_message, h1, not_le.mpr h2, h3],
   fun h1 => by simp [get_aux_states, getterRaises, raiseWithLastError,
      get_last_error_message, h1],
   fun h1 h2 h3 => by simp [get_aux_states, getterRaises, raiseWithLastError,
      get_last_error_message, h1, not_le.mpr h2, h3],
   fun h1 => by simp [get_aux_cycle_counts, getterRaises, raiseWithLastError,
      get_last_error_message, h1],
   fun h1 h2 h3 => by simp [get_aux_cycle_counts, getterRaises, raiseWithLastError,
      get_last_error_message, h1, not_le.mpr h2, h3],
   fun h1 => by simp [get_all_scans_sizes, getterRaises, raiseWithLastError,
      get_last_error_message, h1],
   fun h1 h2 h3 h4 => by simp [get_all_scans, get_all_scans_sizes, getterRaises,
      raiseWithLastError, get_last_error_message, h1,
      not_le.mpr h2, not_le.mpr h3, h4]⟩

/-- Witness for C3 (amended): a concrete failing `set_test_mode` and a
concrete failing result-size query both fetch the message and raise. -/
theorem failing_calls_fetch_message_and_raise_witness :
    opRaises "Failed to set test mode: " envOpsFail
      (set_test_mode envOpsFail ⟨true⟩ 5) (NativeCall.setTestMode 5) ⟨true⟩
  ∧ getterRaises "Failed to get result size: " envOpsFail
      (get_result envOpsFail 0) [NativeCall.getResult 0 none] :=
  ⟨(failing_calls_fetch_message_and_raise envOpsFail ⟨true⟩ 0 0 0).1 5 (by decide),
   (failing_calls_fetch_message_and_raise envOpsFail
      ⟨true⟩ 0 0 0).2.2.2.2.2.2.2.2.2.2.2.2.2.2.2.2.2.2.2.2.2.2.2.2.2.2.1
      (by decide)⟩

/-- A filesystem with no files at all. -/
def fsEmpty : String → Bool := fun _ => false

/-- A filesystem containing exactly the configuration file `d1/a.xml`. -/
def fsDemo : String → Bool := fun p => p == "d1/a.xml"

/-- Counterexample for C7 as stated: opening with a supplied configuration
path that exists nowhere raises `FileNotFoundError` with an empty native
trace — it neither falls back to nor fails via the device-type path (no
`initialiseSingleDeviceSession` call is ever made), contradicting the
claimed disjunction. -/
theorem open_missing_config_no_device_fallback :
    glazInit fsEmpty ["d1"] {} (some "missing.xml")
        GLAZ_LINESCAN_II_V2_SINGLE_DEVICE_TYPE true true =
      (Except.error (PyExc.fileNotFoundError
         "Could not find configuration file: missing.xml"), [], ⟨false⟩)
  ∧ initialiseCallCount (glazInit fsEmpty ["d1"] {} (some "missing.xml")
        GLAZ_LINESCAN_II_V2_SINGLE_DEVICE_TYPE true true).2.1 = 0 := by
  exact ⟨rfl, rfl⟩

/-- C7 (amended): opening takes at most one of the two initialisation paths;
the session is marked open only when that single native initialise call
returned success; a supplied configuration path that is found nowhere makes
open raise `FileNotFoundError` with no native call at all; and the
device-type path is never taken when a configuration path was supplied. -/
theorem open_single_path_and_open_only_on_success (fs : String → Bool)
    (dirs : List String) (env : NativeEnv) (config_file : Option String)
    (device_type : Int) (use_defaults allow_demo : Bool) :
    initialiseCallCount
      (glazInit fs dirs env config_file device_type use_defaults allow_demo).2.1 ≤ 1
  ∧ ((glazInit fs dirs env config_file device_type use_defaults allow_demo).2.2.initialised
        = true →
      (glazInit fs dirs env config_file device_type use_defaults allow_demo).1 =
          Except.ok () ∧
      ((∃ p, (glazInit fs dirs env config_file device_type use_defaults allow_demo).2.1 =
            [NativeCall.initialiseSession p] ∧ env.initialiseSessionStatus p = 0) ∨
       ((glazInit fs dirs env config_file device_type use_defaults allow_demo).2.1 =
            [NativeCall.initialiseSingleDeviceSession device_type use_defaults allow_demo] ∧
          env.initialiseSingleDeviceSessionStatus device_type use_defaults allow_demo = 0)))
  ∧ (∀ c, config_file = some c → fs c = false →
      (∀ d ∈ dirs, fs (path_join d (withXmlExt c)) = false) →
      glazInit fs dirs env config_file device_type use_defaults allow_demo =
        (Except.error (PyExc.fileNotFoundError
           ("Could not find configuration file: " ++ withXmlExt c)), [], ⟨false⟩))
  ∧ (∀ c, config_file = some c → ∀ dt ud ad,
      NativeCall.initialiseSingleDeviceSession dt ud ad ∉
        (glazInit fs dirs env config_file device_type use_defaults allow_demo).2.1) := by
  refine ⟨?_, ?_, ?_, ?_⟩
  · cases config_file with
    | none =>
      cases hfind : find_config_file fs dirs none with
      | error e =>
        by_cases hst : env.initialiseSingleDeviceSessionStatus device_type
            use_defaults allow_demo = 0 <;>
          simp [glazInit, hfind, hst, ERROR_NONE, initialiseCallCount, isInitialiseCall,
            raiseWithLastError, get_last_error_message]
      | ok p =>
        by_cases hst : env.initialiseSessionStatus p = 0 <;>
          simp [glazInit, hfind, hst, ERROR_NONE, initialiseCallCount, isInitialiseCall,
            raiseWithLastError, get_last_error_message]
    | some cf =>
      by_cases hfs : fs cf
      · by_cases hst : env.initialiseSessionStatus cf = 0 <;>
          simp [glazInit, hfs, hst, ERROR_NONE, initialiseCallCount, isInitialiseCall,
            raiseWithLastError, get_last_error_message]
      · cases hfind : find_config_file fs dirs (some cf) with
        | error e =>
          simp [glazInit, hfs, hfind, initialiseCallCount, isInitialiseCall]
        | ok p =>
          by_cases hst : env.initialiseSessionStatus p = 0 <;>
            simp [glazInit, hfs, hfind, hst, ERROR_NONE, initialiseCallCount,
              isInitialiseCall, raiseWithLastError, get_last_error_message]
  · intro hinit
    cases config_file with
    | none =>
      cases hfind : find_config_file fs dirs none with
      | error e =>
        by_cases hst : env.initialiseSingleDeviceSessionStatus device_type
            use_defaults allow_demo = 0
        · refine ⟨?_, Or.inr ⟨?_, hst⟩⟩ <;> simp [glazInit, hfind, hst, ERROR_NONE]
        · simp [glazInit, hfind, hst, ERROR_NONE, raiseWithLastError,
            get_last_error_message] at hinit
      | ok p =>
        by_cases hst : env.initialiseSessionStatus p = 0
        · refine ⟨?_, Or.inl ⟨p, ?_, hst⟩⟩ <;> simp [glazInit, hfind, hst, ERROR_NONE]
        · simp [glazInit, hfind, hst, ERROR_NONE, raiseWithLastError,
            get_last_error_message] at hinit
    | some cf =>
      by_cases hfs : fs cf
      · by_cases hst : env.initialiseSessionStatus cf = 0
        · refine ⟨?_, Or.inl ⟨cf, ?_, hst⟩⟩ <;> simp [glazInit, hfs, hst, ERROR_NONE]
        · simp [glazInit, hfs, hst, ERROR_NONE, raiseWithLastError,
            get_last_error_message] at hinit
      · cases hfind : find_config_file fs dirs (some cf) with
        | error e => simp [glazInit, hfs, hfind] at hinit
        | ok p =>
          by_cases hst : env.initialiseSessionStatus p = 0
          · refine ⟨?_, Or.inl ⟨p, ?_, hst⟩⟩ <;>
              simp [glazInit, hfs, hfind, hst, ERROR_NONE]
          · simp [glazInit, hfs, hfind, hst, ERROR_NONE, raiseWithLastError,
              get_last_error_message] at hinit
  · intro c hc hfsc hall
    subst hc
    have hnone : (dirs.map (fun d => path_join d (withXmlExt c))).find? fs = none := by
      rw [List.find?_eq_none]
      intro x hx
      rcases List.mem_map.mp hx with ⟨d, hd, rfl⟩
      simp [hall d hd]
    simp [glazInit, find_config_file, hfsc, hnone]
  · intro c hc dt ud ad
    subst hc
    by_cases hfs : fs c
    · by_cases hst : env.initialiseSessionStatus c = 0 <;>
        simp [glazInit, hfs, hst, ERROR_NONE, raiseWithLastError, get_last_error_message]
    · cases hfind : find_config_file fs dirs (some c) with
      | error e => simp [glazInit, hfs, hfind]
      | ok p =>
        by_cases hst : env.initialiseSessionStatus p = 0 <;>
          simp [glazInit, hfs, hfind, hst, ERROR_NONE, raiseWithLastError,
            get_last_error_message]

/-- Witness for C7 (amended): a found configuration file opens the session
through exactly the configuration path, and a missing supplied path raises
`FileNotFoundError` with an empty native trace. -/
theorem open_single_path_and_open_only_on_success_witness :
    ((glazInit fsDemo ["d1"] {} (some "a.xml") 6 true true).1 = Except.ok () ∧
     ((∃ p, (glazInit fsDemo ["d1"] {} (some "a.xml") 6 true true).2.1 =
          [NativeCall.initialiseSession p] ∧
          ({} : NativeEnv).initialiseSessionStatus p = 0) ∨
      ((glazInit fsDemo ["d1"] {} (some "a.xml") 6 true true).2.1 =
          [NativeCall.initialiseSingleDeviceSession 6 true true] ∧
        ({} : NativeEnv).initialiseSingleDeviceSessionStatus 6 true true = 0)))
  ∧ glazInit fsEmpty ["d1"] {} (some "missing") 6 true true =
      (Except.error (PyExc.fileNotFoundError
         ("Could not find configuration file: " ++ withXmlExt "missing")), [], ⟨false⟩) :=
  ⟨(open_single_path_and_open_only_on_success fsDemo ["d1"] {} (some "a.xml")
      6 true true).2.1 (by decide),
   (open_single_path_and_open_only_on_success fsEmpty ["d1"] {} (some "missing")
      6 true true).2.2.1 "missing" rfl (by decide) (by decide)⟩

end Pyglaz
